import Mathlib

/-!
Formal model of the oagi-hack-night test harness.

The repository drives an external agent through a batch of test cases
(src/main.py), one at a time.  For each case the orchestrator
(src/manual_tester.py, process_test_case) runs the agent CLI
(run_oagi_agent), checks that the exported markdown log exists, sends the
log to an LLM judge (src/judge.py, evaluate_ease_of_use) and emits a
TestResult; print_summary aggregates the results.

External effects (subprocess resolution and exit codes, the filesystem,
environment variables, the LLM response) are modeled by explicit
environment records; each modeled function also returns a trace counting
how often each external call was attempted, so that call-count properties
can be stated.  Python strings are modeled by Lean String (a sequence of
code points, matching Python slicing and len), Python int by Int or Nat,
Python float arithmetic by exact rational arithmetic, and a
raised-and-propagated exception by Except String.
-/

/-- Result of a single test case execution (src/manual_tester.py lines 18-25,
dataclass TestResult).  The optional fields default to none as in the source. -/
structure TestResult where
  task : String
  success : Bool
  ease_score : Option Int := none
  summary : Option String := none
  error : Option String := none
deriving DecidableEq

/-- Structured judge output (src/judge.py lines 14-23, pydantic model
EaseOfUseEvaluation).  The pydantic field constraints (ge=1, le=10 on
ease_score) are checked at validation time; they are modeled separately in
validate_evaluation, so this structure holds the raw parsed response.
No constraint is declared on summary or justification in the source. -/
structure EaseOfUseEvaluation where
  summary : String
  ease_score : Int
  justification : String
deriving DecidableEq

/-- Validated test case (src/main.py lines 13-17, pydantic model TestCase). -/
structure TestCase where
  task_statement : String
  success_criteria : String

/-- External behavior of the agent subprocess for one invocation
(src/manual_tester.py lines 27-55): whether the primary command "oagi" is
resolvable on PATH, whether it exits 0 when run, the corresponding
CalledProcessError text, and likewise for the venv fallback command. -/
structure AgentEnv where
  primaryResolvable : Bool
  primaryExitZero : Bool
  primaryErr : String
  fallbackOk : Bool
  fallbackErr : String
deriving DecidableEq

/-- Count of subprocess invocation attempts made by run_oagi_agent. -/
structure RunnerTrace where
  primaryCalls : Nat
  fallbackCalls : Nat
deriving DecidableEq

/-- Model of run_oagi_agent (src/manual_tester.py lines 27-55).  The primary
command is attempted; a CalledProcessError (nonzero exit) is re-raised with
no fallback; a FileNotFoundError (command not resolvable) triggers exactly
one fallback attempt via the local venv path, whose failure is re-raised.
The instruction and output path feed the subprocess only, so the outcome
depends only on the environment. -/
def run_oagi_agent (_instruction _output_file : String) (a : AgentEnv) :
    Except String Unit × RunnerTrace :=
  if a.primaryResolvable then
    if a.primaryExitZero then (Except.ok (), ⟨1, 0⟩)
    else (Except.error a.primaryErr, ⟨1, 0⟩)
  else
    if a.fallbackOk then (Except.ok (), ⟨1, 1⟩)
    else (Except.error a.fallbackErr, ⟨1, 1⟩)

/-- External behavior of the judge call for one invocation (src/judge.py
lines 26-79): the value of the OPENROUTER_API_KEY environment variable
(none when unset) and the raw LLM structured response (error = transport or
parsing failure). -/
structure JudgeEnv where
  envApiKey : Option String
  response : Except String EaseOfUseEvaluation

/-- Credential resolution in evaluate_ease_of_use (src/judge.py lines 40-43):
an explicitly supplied key is used as is; otherwise the environment variable
is read, and a missing or empty value raises ValueError. -/
def resolve_api_key (api_key : Option String) (envKey : Option String) :
    Except String String :=
  match api_key with
  | some k => Except.ok k
  | none =>
    match envKey with
    | none => Except.error "OPENROUTER_API_KEY environment variable not set"
    | some k =>
      if k = "" then Except.error "OPENROUTER_API_KEY environment variable not set"
      else Except.ok k

/-- Pydantic validation of the judge response against EaseOfUseEvaluation
(src/judge.py lines 18-22): ease_score must satisfy ge=1 and le=10; a
violation is a validation error, not a coercion.  summary and justification
carry no constraint in the source. -/
def validate_evaluation (ev : EaseOfUseEvaluation) : Except String EaseOfUseEvaluation :=
  if 1 ≤ ev.ease_score ∧ ev.ease_score ≤ 10 then Except.ok ev
  else Except.error "validation error: ease_score out of range"

/-- Model of evaluate_ease_of_use (src/judge.py lines 26-79).  The credential
is resolved first and a missing credential raises before the LLM client is
built, so no network call happens in that branch (second component counts
network round trips).  Otherwise one structured-output call is made and its
response validated. -/
def evaluate_ease_of_use (_steps_description : String) (api_key : Option String)
    (j : JudgeEnv) : Except String EaseOfUseEvaluation × Nat :=
  match resolve_api_key api_key j.envApiKey with
  | Except.error msg => (Except.error msg, 0)
  | Except.ok _ =>
    match j.response with
    | Except.error msg => (Except.error msg, 1)
    | Except.ok ev => (validate_evaluation ev, 1)

/-- External state for one orchestrated case: agent behavior, whether the
log file exists after the run, its content, and the judge behavior. -/
structure CaseEnv where
  agent : AgentEnv
  artifactExists : Bool
  artifactContent : String
  judge : JudgeEnv

/-- Trace of one orchestrated case: subprocess attempts, number of
invocations of evaluate_ease_of_use, and number of LLM network calls. -/
structure CaseTrace where
  runner : RunnerTrace
  evalCalls : Nat
  networkCalls : Nat
deriving DecidableEq

/-- Artifact path computed by process_test_case (src/manual_tester.py line 69):
log_filename is the string "execution_log_", the decimal rendering of
index + 1, then ".md". -/
def log_filename (index : Nat) : String :=
  "execution_log_" ++ toString (index + 1) ++ ".md"

/-- Model of process_test_case (src/manual_tester.py lines 57-105).  Stage 1
runs the agent; an exception is caught and yields a failed TestResult with
the exception text, skipping evaluation.  Stage 2 checks the log file; a
missing file yields a failed TestResult with error "Log file not created",
skipping evaluation.  Stage 3 reads the log and calls evaluate_ease_of_use;
a validated evaluation yields a successful TestResult carrying its
ease_score and summary, and any exception yields a failed TestResult with
the exception text. -/
def process_test_case (task success_criteria : String) (index : Nat)
    (env : CaseEnv) : TestResult × CaseTrace :=
  let instruction := "Task: " ++ task ++ "\n\nSuccess Criteria: " ++ success_criteria
  match run_oagi_agent instruction (log_filename index) env.agent with
  | (Except.error e, tr) =>
    ({ task := task, success := false, error := some e }, ⟨tr, 0, 0⟩)
  | (Except.ok _, tr) =>
    if env.artifactExists then
      let log_content := env.artifactContent
      match evaluate_ease_of_use log_content none env.judge with
      | (Except.ok ev, n) =>
        ({ task := task, success := true, ease_score := some ev.ease_score,
           summary := some ev.summary }, ⟨tr, 1, n⟩)
      | (Except.error e, n) =>
        ({ task := task, success := false, error := some e }, ⟨tr, 1, n⟩)
    else
      ({ task := task, success := false, error := some "Log file not created" },
       ⟨tr, 0, 0⟩)

/-- Batch loop of src/main.py lines 57-61: each case is processed in order
with the running index (starting value supplied by the caller), and every
result is appended.  The per-case external state is drawn from envs at the
case index. -/
def run_batch (envs : Nat → CaseEnv) : List TestCase → Nat → List TestResult
  | [], _ => []
  | tc :: rest, i =>
    (process_test_case tc.task_statement tc.success_criteria i (envs i)).1 ::
      run_batch envs rest (i + 1)

/-- Results list produced by main (src/main.py lines 47-63): the loop uses
1-based enumeration, so the first case is processed with index 1. -/
def main_results (cases : List TestCase) (envs : Nat → CaseEnv) : List TestResult :=
  run_batch envs cases 1

/-- Truth of an Except value: true exactly on the ok constructor. -/
def except_ok {ε α : Type} : Except ε α → Bool
  | Except.ok _ => true
  | Except.error _ => false

/-- Whether the agent run for this environment succeeds (the first component
of run_oagi_agent is ok; it does not depend on the strings passed). -/
def runner_ok (a : AgentEnv) : Bool :=
  except_ok (run_oagi_agent "" "" a).1

/-- Whether the judge call as made by the orchestrator (explicit api_key
absent) returns a validated evaluation for this environment. -/
def eval_ok (j : JudgeEnv) : Bool :=
  except_ok (evaluate_ease_of_use "" none j).1

/-- Whether credential resolution with no explicit key succeeds for this
environment. -/
def cred_ok (j : JudgeEnv) : Bool :=
  except_ok (resolve_api_key none j.envApiKey)

/-- Task label shown by print_summary for one result (src/manual_tester.py
line 124): tasks longer than 45 code points are cut to their first 45 code
points with "..." appended; shorter tasks are shown unchanged. -/
def task_display (t : String) : String :=
  if t.length > 45 then t.take 45 ++ "..." else t

/-- Content of one per-case line of the summary (src/manual_tester.py lines
122-132): pass/fail icon, displayed task label, the ease score when present,
otherwise an error marker when an error is recorded. -/
structure CaseLine where
  success : Bool
  label : String
  scoreShown : Option Int
  errorShown : Bool
deriving DecidableEq

/-- Per-case line builder (src/manual_tester.py lines 122-132). -/
def case_line (r : TestResult) : CaseLine :=
  { success := r.success
    label := task_display r.task
    scoreShown := r.ease_score
    errorShown := r.ease_score.isNone && r.error.isSome }

/-- Abstract content of the report printed by print_summary: the per-case
lines, the passed and total counts of the totals line, and the average ease
score, which is none exactly when the source omits the average line. -/
structure SummaryReport where
  lines : List CaseLine
  passed : Nat
  total : Nat
  avg_score : Option ℚ

/-- Model of print_summary (src/manual_tester.py lines 108-149): passed
counts results with success true, total is the list length, scores collects
the ease_score values that are present, and the average line is printed only
when that list is nonempty, showing sum divided by count. -/
def print_summary (results : List TestResult) : SummaryReport :=
  let passed := (results.filter (fun r => r.success)).length
  let total := results.length
  let scores := results.filterMap (fun r => r.ease_score)
  let avg : Option ℚ :=
    if scores.isEmpty then none
    else some (((scores.sum : ℤ) : ℚ) / (scores.length : ℚ))
  { lines := results.map case_line
    passed := passed
    total := total
    avg_score := avg }

/-- Artifact path actually used for the test case at 1-based position n of
the batch: src/main.py line 58 enumerates cases starting at 1 and passes
that position as the index argument (line 60), and process_test_case names
the file execution_log_(index + 1).md (src/manual_tester.py line 69). -/
def artifact_path_for_position (n : Nat) : String := log_filename n

/-- Number of positional parameters of process_test_case, none of which has
a default (src/manual_tester.py line 57: task, success_criteria, index). -/
def process_test_case_param_count : Nat := 3

/-- Number of positional arguments supplied by the call in the loosely-typed
entry point (src/manual_tester.py line 176: the raw record and the 0-based
index). -/
def loose_call_arg_count : Nat := 2

/-- Python call semantics for the call at src/manual_tester.py line 176:
binding fewer positional arguments than the function has required
parameters raises TypeError before the function body executes, so the agent
is never invoked by this call.  When the arity matched, the body would run;
that branch is unreachable for this call site because no third argument
exists, which the model records by evaluating the body only there. -/
def call_process_test_case_loose {α : Type} (_raw : α) (i : Nat) (env : CaseEnv) :
    Except String (TestResult × CaseTrace) :=
  if loose_call_arg_count < process_test_case_param_count then
    Except.error "TypeError: process_test_case missing 1 required positional argument: index"
  else
    Except.ok (process_test_case "" "" i env)

/-- Loop body of the loosely-typed entry point (src/manual_tester.py lines
175-176): iterate with 0-based enumeration, awaiting each call; an uncaught
exception aborts the loop.  The second component counts agent invocations
attempted, the third counts TestResults produced. -/
def mt_main_loop {α : Type} (envs : Nat → CaseEnv) :
    List α → Nat → Except String Unit × Nat × Nat
  | [], _ => (Except.ok (), 0, 0)
  | tc :: rest, i =>
    match call_process_test_case_loose tc i (envs i) with
    | Except.error e => (Except.error e, 0, 0)
    | Except.ok (_, tr) =>
      let (out, runs, res) := mt_main_loop envs rest (i + 1)
      (out, tr.runner.primaryCalls + runs, 1 + res)

/-- Model of the loosely-typed entry point manual_tester.main
(src/manual_tester.py lines 152-176) from the start of its loop, with
0-based enumeration. -/
def mt_main {α : Type} (cases : List α) (envs : Nat → CaseEnv) :
    Except String Unit × Nat × Nat :=
  mt_main_loop envs cases 0

/-- Sample validated judge response used as concrete input in witnesses. -/
def sampleEval : EaseOfUseEvaluation :=
  { summary := "The agent clicked through the flow.", ease_score := 8,
    justification := "Few steps were needed." }

/-- Concrete environment in which the agent run succeeds, the log exists,
but the OPENROUTER_API_KEY environment variable is unset. -/
def env_no_key : CaseEnv :=
  { agent := { primaryResolvable := true, primaryExitZero := true,
               primaryErr := "perr", fallbackOk := true, fallbackErr := "ferr" }
    artifactExists := true
    artifactContent := "log text"
    judge := { envApiKey := none, response := Except.ok sampleEval } }

/-- Concrete environment in which the agent run succeeds but the log file is
never created. -/
def env_no_artifact : CaseEnv :=
  { agent := { primaryResolvable := true, primaryExitZero := true,
               primaryErr := "perr", fallbackOk := true, fallbackErr := "ferr" }
    artifactExists := false
    artifactContent := ""
    judge := { envApiKey := some "key", response := Except.ok sampleEval } }

/-- Concrete environment in which every stage succeeds but the judge returns
an empty summary, which pydantic accepts since the summary field carries no
length constraint (src/judge.py line 17). -/
def env_empty_summary : CaseEnv :=
  { agent := { primaryResolvable := true, primaryExitZero := true,
               primaryErr := "perr", fallbackOk := true, fallbackErr := "ferr" }
    artifactExists := true
    artifactContent := "log text"
    judge := { envApiKey := some "key",
               response := Except.ok { summary := "", ease_score := 8,
                                       justification := "short" } } }

/-- Concrete environment in which the primary agent command is not
resolvable and the venv fallback also fails. -/
def env_unresolvable : CaseEnv :=
  { agent := { primaryResolvable := false, primaryExitZero := true,
               primaryErr := "perr", fallbackOk := false, fallbackErr := "ferr" }
    artifactExists := true
    artifactContent := "log text"
    judge := { envApiKey := some "key", response := Except.ok sampleEval } }

/-- Concrete environment in which the primary agent command resolves but
exits nonzero. -/
def env_badexit : CaseEnv :=
  { agent := { primaryResolvable := true, primaryExitZero := false,
               primaryErr := "perr", fallbackOk := true, fallbackErr := "ferr" }
    artifactExists := true
    artifactContent := "log text"
    judge := { envApiKey := some "key", response := Except.ok sampleEval } }

/-- Sample result list with one scored and one unscored result. -/
def sample_results : List TestResult :=
  [{ task := "t1", success := true, ease_score := some 8, summary := some "s" },
   { task := "t2", success := false, error := some "e" }]

/-- Sample task statement of 49 code points, longer than the 45-point limit. -/
def long_task : String := "0123456789012345678901234567890123456789012345678"

/-- Auxiliary: the list of present scores and the list of results carrying a
score have the same length, so the average denominator counts exactly the
scored results. -/
theorem scored_length (results : List TestResult) :
    (results.filterMap (fun r => r.ease_score)).length
      = (results.filter (fun r => r.ease_score.isSome)).length := by
  induction results with
  | nil => simp
  | cons r rest ih => cases h : r.ease_score <;> simp [h, ih]

/-- Auxiliary: the average line is omitted exactly when no result carries a
score. -/
theorem avg_none_iff (results : List TestResult) :
    (print_summary results).avg_score = none
      ↔ results.filterMap (fun r => r.ease_score) = [] := by
  by_cases hc : results.filterMap (fun r => r.ease_score) = [] <;>
    simp [print_summary, List.isEmpty_iff, hc]

/-- Auxiliary: when some result carries a score, the reported average is the
sum of present scores divided by their number. -/
theorem avg_some_eq (results : List TestResult)
    (hc : results.filterMap (fun r => r.ease_score) ≠ []) :
    (print_summary results).avg_score
      = some ((((results.filterMap (fun r => r.ease_score)).sum : ℤ) : ℚ)
          / ((results.filterMap (fun r => r.ease_score)).length : ℚ)) := by
  simp [print_summary, List.isEmpty_iff, hc]

/-- Auxiliary: position-wise characterization of the batch loop of
src/main.py for an arbitrary starting index: the k-th result is exactly the
outcome of processing the k-th case at index start + k. -/
theorem run_batch_getElem (envs : Nat → CaseEnv) (cs : List TestCase) :
    ∀ i k, (run_batch envs cs i)[k]? =
      (cs[k]?).map (fun tc =>
        (process_test_case tc.task_statement tc.success_criteria (i + k) (envs (i + k))).1) := by
  induction cs with
  | nil => intro i k; simp [run_batch]
  | cons tc rest ih =>
    intro i k
    cases k with
    | zero => simp [run_batch]
    | succ k =>
      have h : i + (k + 1) = (i + 1) + k := by omega
      simp [run_batch, ih (i + 1) k, h]

/-- Auxiliary: the batch loop produces one result per input case. -/
theorem run_batch_length (envs : Nat → CaseEnv) (cs : List TestCase) :
    ∀ i, (run_batch envs cs i).length = cs.length := by
  induction cs with
  | nil => intro i; simp [run_batch]
  | cons tc rest ih => intro i; simp [run_batch, ih (i + 1)]

/-- C1: for every test case and every external environment, the emitted
TestResult has success = true exactly when the runner invocation succeeded,
the artifact existed, and the evaluation call returned a validated
Evaluation; and the evaluation client is invoked exactly when the runner
succeeded and the artifact existed, hence never after a runner failure or a
missing artifact. -/
theorem C1_success_iff_pipeline_ok (task sc : String) (idx : Nat) (env : CaseEnv) :
    ((process_test_case task sc idx env).1.success
      = (runner_ok env.agent && env.artifactExists && eval_ok env.judge))
    ∧ ((process_test_case task sc idx env).2.evalCalls
      = if runner_ok env.agent && env.artifactExists then 1 else 0) := by
  rcases env with ⟨⟨pr, pz, pe, fo, fe⟩, ae, ac, ek, resp⟩
  cases pr <;> cases pz <;> cases fo <;> cases ae <;>
    simp [process_test_case, run_oagi_agent, evaluate_ease_of_use,
          runner_ok, eval_ok, except_ok, resolve_api_key] <;>
  · cases ek with
    | none => simp
    | some k =>
      by_cases hk : k = ""
      · simp [hk]
      · simp [hk]
        cases resp with
        | error e => simp
        | ok ev =>
          by_cases hv : 1 ≤ ev.ease_score ∧ ev.ease_score ≤ 10 <;>
            simp [validate_evaluation, hv]

/-- C2: for every batch and every behavior of the external world, main
produces exactly one TestResult per input TestCase, in input order: the
result list has the same length as the batch, and its k-th entry is exactly
the outcome of processing the k-th TestCase (with 1-based index k + 1),
regardless of failures in other cases. -/
theorem C2_batch_preserves_cases (cases : List TestCase) (envs : Nat → CaseEnv) :
    (main_results cases envs).length = cases.length
    ∧ ∀ k, (main_results cases envs)[k]? =
        (cases[k]?).map (fun tc =>
          (process_test_case tc.task_statement tc.success_criteria (k + 1) (envs (k + 1))).1) := by
  refine ⟨run_batch_length envs cases 1, fun k => ?_⟩
  have h := run_batch_getElem envs cases 1 k
  simpa [main_results, Nat.add_comm] using h

/-- C3 counterexample: with no explicit key and the credential environment
variable unset, processing a case still invokes the runner (one primary
subprocess attempt is recorded), and the missing credential is recorded as a
per-case failure on the TestResult rather than raised as a fatal pre-run
error; only the network call is avoided.  This refutes the claim that the
error is raised before any runner invocation and is not a per-case failure. -/
theorem C3_missing_key_counterexample :
    (process_test_case "t" "c" 1 env_no_key).2.runner.primaryCalls = 1
    ∧ (process_test_case "t" "c" 1 env_no_key).1.success = false
    ∧ (process_test_case "t" "c" 1 env_no_key).1.error
        = some "OPENROUTER_API_KEY environment variable not set"
    ∧ (process_test_case "t" "c" 1 env_no_key).2.networkCalls = 0 :=
  ⟨rfl, rfl, rfl, rfl⟩

/-- C3 amended: when no API key is supplied explicitly and the credential
environment variable is unset, the per-case evaluation stage raises the
missing-credential error before any network call is attempted (zero network
round trips), but only after the runner has already been invoked for that
case, and the orchestrator records it as that case's per-case failure:
success = false with the ValueError text in the error field. -/
theorem C3_missing_key_amended (task sc : String) (idx : Nat) (env : CaseEnv)
    (hkey : env.judge.envApiKey = none)
    (hrun : runner_ok env.agent = true)
    (hart : env.artifactExists = true) :
    (process_test_case task sc idx env).1.success = false
    ∧ (process_test_case task sc idx env).1.error
        = some "OPENROUTER_API_KEY environment variable not set"
    ∧ (process_test_case task sc idx env).2.networkCalls = 0
    ∧ (process_test_case task sc idx env).2.runner.primaryCalls = 1 := by
  rcases env with ⟨⟨pr, pz, pe, fo, fe⟩, ae, ac, ek, resp⟩
  simp only at hkey hart
  subst hkey hart
  simp [runner_ok, run_oagi_agent, except_ok] at hrun
  cases pr <;> cases pz <;> cases fo <;>
    simp_all [process_test_case, run_oagi_agent, evaluate_ease_of_use, resolve_api_key]

/-- C3 witness: the amended statement evaluated in the concrete environment
with no credential. -/
theorem C3_missing_key_witness :
    (process_test_case "t" "c" 1 env_no_key).1.success = false
    ∧ (process_test_case "t" "c" 1 env_no_key).1.error
        = some "OPENROUTER_API_KEY environment variable not set"
    ∧ (process_test_case "t" "c" 1 env_no_key).2.networkCalls = 0
    ∧ (process_test_case "t" "c" 1 env_no_key).2.runner.primaryCalls = 1 :=
  C3_missing_key_amended "t" "c" 1 env_no_key rfl rfl rfl

/-- C4: the artifact path used for the test case at 1-based position 1 is
execution_log_2.md, not execution_log_1.md as the claim states: main passes
the 1-based position as the index and process_test_case adds one more. -/
theorem C4_artifact_path_off_by_one :
    artifact_path_for_position 1 = "execution_log_2.md"
    ∧ artifact_path_for_position 1 ≠ "execution_log_1.md" := by
  constructor
  · rfl
  · decide

/-- C5 counterexample: when the runner reports success and the artifact is
missing, the recorded error text is "Log file not created", not the claimed
"artifact not created"; the success flag is false and evaluation is skipped
as claimed. -/
theorem C5_artifact_error_string_counterexample :
    (process_test_case "t" "c" 1 env_no_artifact).1.success = false
    ∧ (process_test_case "t" "c" 1 env_no_artifact).1.error = some "Log file not created"
    ∧ (process_test_case "t" "c" 1 env_no_artifact).1.error ≠ some "artifact not created"
    ∧ (process_test_case "t" "c" 1 env_no_artifact).2.evalCalls = 0 :=
  ⟨rfl, rfl, by decide, rfl⟩

/-- C5 amended: when the runner reports success but the artifact file does
not exist, the orchestrator emits TestResult with success = false and error
equal to "Log file not created", without attempting evaluation. -/
theorem C5_artifact_missing_amended (task sc : String) (idx : Nat) (env : CaseEnv)
    (hrun : runner_ok env.agent = true) (hart : env.artifactExists = false) :
    (process_test_case task sc idx env).1
      = { task := task, success := false, error := some "Log file not created" }
    ∧ (process_test_case task sc idx env).2.evalCalls = 0
    ∧ (process_test_case task sc idx env).2.networkCalls = 0 := by
  rcases env with ⟨⟨pr, pz, pe, fo, fe⟩, ae, ac, ek, resp⟩
  simp only at hart
  subst hart
  simp [runner_ok, run_oagi_agent, except_ok] at hrun
  cases pr <;> cases pz <;> cases fo <;>
    simp_all [process_test_case, run_oagi_agent]

/-- C5 witness: the amended statement evaluated in the concrete environment
with a successful run and a missing artifact. -/
theorem C5_artifact_missing_witness :
    (process_test_case "t" "c" 2 env_no_artifact).1
      = { task := "t", success := false, error := some "Log file not created" }
    ∧ (process_test_case "t" "c" 2 env_no_artifact).2.evalCalls = 0
    ∧ (process_test_case "t" "c" 2 env_no_artifact).2.networkCalls = 0 :=
  C5_artifact_missing_amended "t" "c" 2 env_no_artifact rfl rfl

/-- C6: the average ease score is omitted from the report exactly when no
result carries a score, and whenever it is reported, the average times the
number of results whose score is present equals the sum of the present
scores: absent scores contribute to neither numerator nor denominator. -/
theorem C6_average_over_present_scores (results : List TestResult) :
    ((print_summary results).avg_score = none ↔ ∀ r ∈ results, r.ease_score = none)
    ∧ ∀ q, (print_summary results).avg_score = some q →
        q * ((results.filter (fun r => r.ease_score.isSome)).length : ℚ)
          = (((results.filterMap (fun r => r.ease_score)).sum : ℤ) : ℚ) := by
  constructor
  · exact (avg_none_iff results).trans List.filterMap_eq_nil_iff
  · intro q hq
    have hc : results.filterMap (fun r => r.ease_score) ≠ [] := by
      intro h0
      rw [(avg_none_iff results).mpr h0] at hq
      exact Option.noConfusion hq
    rw [avg_some_eq results hc] at hq
    have hq2 := Option.some.inj hq
    have hne : ((results.filterMap (fun r => r.ease_score)).length : ℚ) ≠ 0 := by
      simpa [List.length_eq_zero] using hc
    rw [← scored_length results, ← hq2]
    field_simp

/-- C6 witness: for the sample list with one scored result (score 8) and one
unscored result, the reported average 8 times the single scored result
equals the sum 8. -/
theorem C6_average_witness :
    (8 : ℚ) * ((sample_results.filter (fun r => r.ease_score.isSome)).length : ℚ)
      = (((sample_results.filterMap (fun r => r.ease_score)).sum : ℤ) : ℚ) :=
  (C6_average_over_present_scores sample_results).2 8 (by
    rw [avg_some_eq sample_results (by decide)]
    have h : sample_results.filterMap (fun r => r.ease_score) = [8] := by decide
    rw [h]
    norm_num)

/-- C7 counterexample: the orchestrator can emit a TestResult with
success = true whose summary is the empty string, because the judge schema
does not constrain the summary text; this refutes the part of the claim
requiring a non-empty summary whenever success is true. -/
theorem C7_empty_summary_counterexample :
    (process_test_case "t" "c" 1 env_empty_summary).1.success = true
    ∧ (process_test_case "t" "c" 1 env_empty_summary).1.summary = some ""
    ∧ (process_test_case "t" "c" 1 env_empty_summary).1.ease_score = some 8 :=
  ⟨rfl, rfl, rfl⟩

/-- C7 amended: for every TestResult emitted by the orchestrator, ease_score
is present exactly when success = true, a summary (possibly empty) is
present exactly when success = true, and whenever ease_score is present it
is an integer in the inclusive range 1 to 10. -/
theorem C7_score_presence_amended (task sc : String) (idx : Nat) (env : CaseEnv) :
    ((process_test_case task sc idx env).1.ease_score.isSome
        = (process_test_case task sc idx env).1.success)
    ∧ ((process_test_case task sc idx env).1.summary.isSome
        = (process_test_case task sc idx env).1.success)
    ∧ ∀ s, (process_test_case task sc idx env).1.ease_score = some s →
        1 ≤ s ∧ s ≤ 10 := by
  rcases env with ⟨⟨pr, pz, pe, fo, fe⟩, ae, ac, ek, resp⟩
  cases pr <;> cases pz <;> cases fo <;> cases ae <;>
    simp [process_test_case, run_oagi_agent, evaluate_ease_of_use, resolve_api_key] <;>
  · cases ek with
    | none => simp
    | some k =>
      by_cases hk : k = ""
      · simp [hk]
      · simp [hk]
        cases resp with
        | error e => simp
        | ok ev =>
          by_cases hv : 1 ≤ ev.ease_score ∧ ev.ease_score ≤ 10 <;>
            simp [validate_evaluation, hv]

/-- C7 witness: the amended statement evaluated on a successful case whose
score is 8, discharging the range hypothesis there. -/
theorem C7_score_presence_witness :
    (process_test_case "t" "c" 1 env_empty_summary).1.ease_score = some 8
    ∧ (1 ≤ (8 : Int) ∧ (8 : Int) ≤ 10) :=
  ⟨rfl, (C7_score_presence_amended "t" "c" 1 env_empty_summary).2.2 8 rfl⟩

/-- C8: when the primary agent command is not resolvable, exactly one
fallback invocation is attempted; when the primary command resolves but
exits nonzero, no fallback is attempted and the runner fails with the
CalledProcessError text; and whenever the runner fails, the orchestrator
converts the failure into a TestResult with success = false and error set,
without invoking the evaluation client. -/
theorem C8_runner_fallback_and_catch (instr outf task sc : String) (idx : Nat)
    (env : CaseEnv) :
    (env.agent.primaryResolvable = false →
      (run_oagi_agent instr outf env.agent).2.fallbackCalls = 1)
    ∧ (env.agent.primaryResolvable = true →
        (run_oagi_agent instr outf env.agent).2.fallbackCalls = 0
        ∧ (env.agent.primaryExitZero = false →
            (run_oagi_agent instr outf env.agent).1 = Except.error env.agent.primaryErr))
    ∧ (runner_ok env.agent = false →
        (process_test_case task sc idx env).1.success = false
        ∧ (process_test_case task sc idx env).1.error.isSome = true
        ∧ (process_test_case task sc idx env).2.evalCalls = 0) := by
  rcases env with ⟨⟨pr, pz, pe, fo, fe⟩, ae, ac, ek, resp⟩
  cases pr <;> cases pz <;> cases fo <;> cases ae <;>
    simp [process_test_case, run_oagi_agent, runner_ok, except_ok]

/-- C8 witness: the theorem applied to a concrete environment with an
unresolvable primary command (one fallback attempt, failure converted into
a failed TestResult with no evaluation) and to a concrete environment whose
primary command exits nonzero (no fallback attempt, CalledProcessError
propagated). -/
theorem C8_runner_fallback_witness :
    (run_oagi_agent "i" "o" env_unresolvable.agent).2.fallbackCalls = 1
    ∧ ((run_oagi_agent "i" "o" env_badexit.agent).2.fallbackCalls = 0
       ∧ (run_oagi_agent "i" "o" env_badexit.agent).1
           = Except.error env_badexit.agent.primaryErr)
    ∧ ((process_test_case "t" "c" 1 env_unresolvable).1.success = false
       ∧ (process_test_case "t" "c" 1 env_unresolvable).1.error.isSome = true
       ∧ (process_test_case "t" "c" 1 env_unresolvable).2.evalCalls = 0) :=
  ⟨(C8_runner_fallback_and_catch "i" "o" "t" "c" 1 env_unresolvable).1 rfl,
   ⟨((C8_runner_fallback_and_catch "i" "o" "t" "c" 1 env_badexit).2.1 rfl).1,
    ((C8_runner_fallback_and_catch "i" "o" "t" "c" 1 env_badexit).2.1 rfl).2 rfl⟩,
   (C8_runner_fallback_and_catch "i" "o" "t" "c" 1 env_unresolvable).2.2 rfl⟩

/-- C9: a task statement of at most 45 code points is displayed unchanged in
the per-case report line, and a longer statement is displayed as exactly its
first 45 code points followed by the ellipsis marker. -/
theorem C9_task_label_truncation (t : String) :
    (t.length ≤ 45 → task_display t = t)
    ∧ (t.length > 45 →
        task_display t = t.take 45 ++ "..." ∧ (t.take 45).length = 45) := by
  constructor
  · intro h
    simp [task_display, Nat.not_lt.mpr h]
  · intro h
    refine ⟨by simp [task_display, h], ?_⟩
    have hlen : (t.take 45).length = min 45 t.length := by
      rw [String.take_eq]
      exact List.length_take 45 t.data
    rw [hlen]
    omega

/-- C9 witness: the theorem applied to a concrete short task (shown
unchanged) and to a concrete 49-point task (truncated to 45 points plus the
ellipsis marker). -/
theorem C9_task_label_witness :
    task_display "short task" = "short task"
    ∧ (task_display long_task = long_task.take 45 ++ "..."
       ∧ (long_task.take 45).length = 45) :=
  ⟨(C9_task_label_truncation "short task").1 (by decide),
   (C9_task_label_truncation long_task).2 (by decide)⟩

/-- C10: for every non-empty list of raw test cases, the loosely-typed entry
point manual_tester.main raises TypeError on the first case, because its
loop passes two positional arguments to process_test_case, which requires
three; no agent invocation occurs and no TestResult is ever produced on
this path. -/
theorem C10_loose_entry_type_error {α : Type} (cases : List α)
    (envs : Nat → CaseEnv) (h : cases ≠ []) :
    mt_main cases envs
      = (Except.error "TypeError: process_test_case missing 1 required positional argument: index",
         0, 0) := by
  cases cases with
  | nil => exact absurd rfl h
  | cons c rest => rfl

/-- C10 witness: the theorem applied to a concrete one-element batch. -/
theorem C10_loose_entry_witness :
    mt_main [()] (fun _ => env_no_key)
      = (Except.error "TypeError: process_test_case missing 1 required positional argument: index",
         0, 0) :=
  C10_loose_entry_type_error [()] (fun _ => env_no_key) (List.cons_ne_nil _ _)
